import Mathlib

/-!
Verification development for the AutoAssis repository (Flask chat backend).

The repository has two variants of the HTTP application:
  * `src/app.py` (SQLite variant), with helpers in `src/autoai.py` and
    `src/vision_ai.py`;
  * `src/backend/app.py` (MySQL variant), with helpers in
    `src/backend/nogai.py`, `src/backend/vision_ai.py` and
    `src/backend/report_generator.py`.

The handlers are embedded shallowly: database state is passed explicitly as
lists of rows, the external collaborators (the bcrypt hasher from passlib,
base64 decoding, PIL image validation and the Gemini/Ollama model clients)
are abstracted as oracle parameters or small models of their documented
contracts, and Python exceptions are explicit (`Option`/`Except` results,
or dedicated error branches of a result type).  Timestamps are seconds
since the Unix epoch, as integers.
-/

/-! ## Python datetime model (for `created_at` handling) -/

/-- A Python `datetime` value: the timestamp its fields denote when read as
UTC wall-clock time (`epoch`, seconds), plus its `tzinfo` utcoffset in
seconds (`none` for a timezone-naive value). -/
structure PyDatetime where
  epoch : Int
  tz : Option Int
  deriving Repr, DecidableEq

/-- Absolute UTC timestamp of a `datetime` after the normalization performed
by `is_trial_expired` (src/backend/app.py line 139): a naive value is
reinterpreted in UTC (`replace(tzinfo=timezone.utc)`, offset 0); an aware
value with utcoffset `off` denotes absolute time `epoch - off`. -/
def toUtcEpoch (d : PyDatetime) : Int :=
  d.epoch - (d.tz.getD 0)

/-! ## Backend (MySQL variant) data model: src/backend/app.py -/

/-- A row of the `users` table of src/backend/app.py (lines 104-113). -/
structure User where
  id : Nat
  nome : String
  email : String
  password : String
  is_premium : Bool
  created_at : PyDatetime
  deriving Repr, DecidableEq

/-- A row of the `chats` table of src/backend/app.py (lines 114-123). -/
structure ChatRow where
  user_id : Nat
  mensagem_usuario : String
  resposta_ia : String
  created_at : Int
  deriving Repr, DecidableEq

/-- `is_trial_expired` (src/backend/app.py lines 135-140): premium users are
never expired; otherwise the elapsed time from the (UTC-normalized)
`created_at` to `now` is converted to whole days — Python
`timedelta.days` is the floor of the total seconds divided by 86400 —
and the trial is expired when that is at least 30. -/
def is_trial_expired (u : User) (now : Int) : Bool :=
  if u.is_premium then false
  else 30 ≤ (now - toUtcEpoch u.created_at).fdiv 86400

/-- C1: `isTrialExpired` is false for every premium user, and for a
non-premium user it is true exactly when the number of whole days elapsed
from the UTC-normalized `created_at` to `now` is at least 30; in
particular it is true at exactly 30 days to the second and false at 29
days. -/
theorem c1_is_trial_expired_iff (u : User) (now : Int) :
    (is_trial_expired u now = true ↔
      (u.is_premium = false ∧ 30 ≤ (now - toUtcEpoch u.created_at).fdiv 86400))
    ∧ (u.is_premium = false → toUtcEpoch u.created_at = now - 30 * 86400 →
        is_trial_expired u now = true)
    ∧ (u.is_premium = false → toUtcEpoch u.created_at = now - 29 * 86400 →
        is_trial_expired u now = false) := by
  refine ⟨?_, ?_, ?_⟩
  · constructor
    · intro h
      by_cases hp : u.is_premium
      · simp [is_trial_expired, hp] at h
      · simp only [Bool.not_eq_true] at hp
        refine ⟨hp, ?_⟩
        simpa [is_trial_expired, hp, decide_eq_true_eq] using h
    · rintro ⟨hp, hd⟩
      simp [is_trial_expired, hp, hd]
  · intro hp hc
    simp only [is_trial_expired, hp, if_false, hc]
    have : now - (now - 30 * 86400) = 30 * 86400 := by ring
    rw [this]
    decide
  · intro hp hc
    simp only [is_trial_expired, hp, if_false, hc]
    have : now - (now - 29 * 86400) = 29 * 86400 := by ring
    rw [this]
    decide

/-- A concrete non-premium user created at epoch 0 (naive timestamp). -/
def demoUser (premium : Bool) (created : Int) : User :=
  { id := 1, nome := "Ana", email := "ana@ex.com", password := "h",
    is_premium := premium, created_at := { epoch := created, tz := none } }

/-! ## Backend (MySQL variant) chat handler: src/backend/app.py lines 183-201 -/

/-- Which external model collaborator a handler invoked (src/backend/nogai.py
`gerar_resposta`, src/backend/vision_ai.py `analisar_imagem`). -/
inductive Collab where
  | vision
  | text
  deriving Repr, DecidableEq

/-- Python truthiness of an optional string field fetched with
`data.get(...)`: `None` and the empty string are falsy. -/
def pyTruthy : Option String → Bool
  | none => false
  | some s => !s.isEmpty

/-- Python `a or b` on an optional string and a default, as used in
`msg or "[Imagem]"` (src/backend/app.py line 197). -/
def pyOrElse (o : Option String) (dflt : String) : String :=
  match o with
  | none => dflt
  | some s => if s.isEmpty then dflt else s

/-- Result of a run of the backend `/api/chat` handler: HTTP status, the
`response` field on success, the `error` field on failure, the `chats`
table after the run, and the collaborator invocations it performed. -/
structure BChatResult where
  status : Nat
  response : Option String
  error : Option String
  chats : List ChatRow
  calls : List Collab
  deriving Repr, DecidableEq

/-- The `/api/chat` handler of src/backend/app.py (lines 183-201), embedded
with its collaborators as oracles.  `userLookup` is the result of the
`SELECT * FROM users WHERE id = %s` fetch (a `None` row makes
`is_trial_expired` raise `AttributeError`, landing in the handler's
`except` with a 500).  `visionResult`/`textResult` is what
`analisar_imagem`/`gerar_resposta` returns (`Except.error` when the call
raises).  `insertRaises` makes the `INSERT INTO chats` raise; the
connection's rollback leaves the table unchanged. -/
def backend_chat (userLookup : Option User) (now : Int) (user_id : Nat)
    (msg img : Option String)
    (visionResult textResult : Except String String)
    (insertRaises : Bool) (chats : List ChatRow) : BChatResult :=
  match userLookup with
  | none =>
      { status := 500, response := none,
        error := some "Erro interno ao processar chat.",
        chats := chats, calls := [] }
  | some user =>
      if is_trial_expired user now then
        { status := 402, response := none, error := some "TRIAL_EXPIRED",
          chats := chats, calls := [] }
      else
        let invoked := if pyTruthy img then Collab.vision else Collab.text
        let resp := if pyTruthy img then visionResult else textResult
        match resp with
        | Except.error _ =>
            { status := 500, response := none,
              error := some "Erro interno ao processar chat.",
              chats := chats, calls := [invoked] }
        | Except.ok resposta =>
            if insertRaises then
              { status := 500, response := none,
                error := some "Erro interno ao processar chat.",
                chats := chats, calls := [invoked] }
            else
              { status := 200, response := some resposta, error := none,
                chats := chats ++
                  [{ user_id := user_id,
                     mensagem_usuario := pyOrElse msg "[Imagem]",
                     resposta_ia := resposta, created_at := now }],
                calls := [invoked] }

/-- C2: an authenticated chat request by a non-premium user whose account is
at least 30 whole days old is answered with status 402 and error code
`TRIAL_EXPIRED`, no collaborator is invoked, and no chat row is
persisted — for any message/image payload, any collaborator behaviour
and any insert behaviour. -/
theorem c2_chat_trial_gate (u : User) (now : Int) (uid : Nat)
    (msg img : Option String) (vr tr : Except String String)
    (ins : Bool) (chats : List ChatRow)
    (hprem : u.is_premium = false)
    (hage : 30 ≤ (now - toUtcEpoch u.created_at).fdiv 86400) :
    backend_chat (some u) now uid msg img vr tr ins chats =
      { status := 402, response := none, error := some "TRIAL_EXPIRED",
        chats := chats, calls := [] } := by
  have hexp : is_trial_expired u now = true := by
    simp [is_trial_expired, hprem, hage]
  simp [backend_chat, hexp]

/-- Witness for C2: a 31-day-old non-premium account is turned away with
402/`TRIAL_EXPIRED`, no collaborator call, chats table untouched. -/
theorem c2_chat_trial_gate_witness :
    backend_chat (some (demoUser false 0)) (31 * 86400) 1
        (some "oi") none (Except.ok "v") (Except.ok "t") false [] =
      { status := 402, response := none, error := some "TRIAL_EXPIRED",
        chats := [], calls := [] } :=
  c2_chat_trial_gate (demoUser false 0) (31 * 86400) 1
    (some "oi") none (Except.ok "v") (Except.ok "t") false []
    rfl (by decide)

/-- Witness for C1: instantiated at a non-premium user created at epoch 0,
the trial is expired at exactly 30 days and not expired at 29 days. -/
theorem c1_is_trial_expired_iff_witness :
    is_trial_expired (demoUser false 0) (30 * 86400) = true
    ∧ is_trial_expired (demoUser false 0) (29 * 86400) = false :=
  ⟨(c1_is_trial_expired_iff (demoUser false 0) (30 * 86400)).2.1 rfl rfl,
   (c1_is_trial_expired_iff (demoUser false 0) (29 * 86400)).2.2 rfl rfl⟩

/-! ## Python string helpers used by the SQLite variant (src/app.py) -/

/-- Whitespace characters removed by Python `str.strip()` (the ASCII ones,
which are the only ones these handlers can meet in the claims). -/
def pyIsSpace (c : Char) : Bool :=
  c = ' ' || c = '\t' || c = '\n' || c = '\x0d' || c = '\x0b' || c = '\x0c'

/-- Python `str.strip()`: drop leading and trailing whitespace. -/
def pyStrip (s : String) : String :=
  ⟨((s.data.dropWhile pyIsSpace).reverse.dropWhile pyIsSpace).reverse⟩

/-- Python `str.lower()` (ASCII case folding, which covers the emails of the
claims). -/
def pyLower (s : String) : String :=
  ⟨s.data.map Char.toLower⟩

/-- Width in bytes of one character under UTF-8. -/
def utf8Width (c : Char) : Nat :=
  if c.val < 0x80 then 1
  else if c.val < 0x800 then 2
  else if c.val < 0x10000 then 3
  else 4

/-- The effect of Python `bytes_of_s[:n].decode('utf-8')` on a string `s`
given as its character list: keep characters while their UTF-8 bytes fit
in the byte budget `n`; a cut that falls exactly on a character boundary
succeeds, and a cut through the middle of a multi-byte character makes
`decode` raise `UnicodeDecodeError` (`none`). -/
def byteTruncate : Nat → List Char → Option (List Char)
  | _, [] => some []
  | n, c :: cs =>
      if utf8Width c ≤ n then
        match byteTruncate (n - utf8Width c) cs with
        | some r => some (c :: r)
        | none => none
      else if n = 0 then some []
      else none

/-! ## passlib bcrypt model

The hasher is an external collaborator (spec section 4.1): it is modelled by
its documented contract — `verify(p, hash(q))` is true exactly when
`p = q` as byte strings (the salt only makes stored hashes differ). -/

/-- A stored bcrypt hash: the hashed byte string together with its salt. -/
structure BCHash where
  pwd : List Char
  salt : Nat
  deriving Repr, DecidableEq

/-- `passlib.hash.bcrypt.hash`. -/
def bcrypt_hash (salt : Nat) (p : List Char) : BCHash :=
  { pwd := p, salt := salt }

/-- `passlib.hash.bcrypt.verify`. -/
def bcrypt_verify (p : List Char) (h : BCHash) : Bool :=
  decide (p = h.pwd)

/-- `hash_password` (src/app.py lines 155-159): truncate
`pwd[:72].encode('utf-8')[:72].decode('utf-8')`, then hash.  `none` when
the byte truncation cuts a multi-byte character and `decode` raises. -/
def hash_password (salt : Nat) (pwd : String) : Option BCHash :=
  (byteTruncate 72 (pwd.data.take 72)).map (bcrypt_hash salt)

/-- `verify_password` (src/app.py lines 161-164): the same truncation, then
bcrypt verification.  `none` when `decode` raises. -/
def verify_password (pwd : String) (h : BCHash) : Option Bool :=
  (byteTruncate 72 (pwd.data.take 72)).map (fun p => bcrypt_verify p h)

/-! ## SQLite variant data model: src/app.py -/

/-- A row of the `users` table of src/app.py (lines 81-89). -/
structure SUser where
  id : Nat
  nome : String
  email : String
  password : BCHash
  data_criacao : Int
  deriving Repr, DecidableEq

/-- A row of the `chats` table of src/app.py (lines 92-103), with the
columns the handlers insert. -/
structure SChatRow where
  user_id : Nat
  categoria : String
  mensagem_usuario : String
  resposta_ia : String
  data_criacao : Int
  deriving Repr, DecidableEq

/-- A signed access token (`create_access_token(identity=str(user_id))`):
opaque to the handlers, carrying the user identity as subject. -/
structure AccessToken where
  identity : Nat
  deriving Repr, DecidableEq

/-- `flask_jwt_extended.create_access_token`. -/
def create_access_token (uid : Nat) : AccessToken :=
  { identity := uid }

/-- A row of the `sessoes` audit table of src/app.py (lines 106-115). -/
structure Sessao where
  user_id : Nat
  token : AccessToken
  data_criacao : Int
  data_expiracao : Int
  deriving Repr, DecidableEq

/-- The SQLite database state of src/app.py. -/
structure SDb where
  users : List SUser
  chats : List SChatRow
  sessoes : List Sessao
  deriving Repr, DecidableEq

/-- `get_user` (src/app.py lines 166-171): first `users` row with the given
(already normalized) email. -/
def get_user (db : SDb) (email : String) : Option SUser :=
  db.users.find? (fun u => u.email == email)

/-- SQLite `INTEGER PRIMARY KEY AUTOINCREMENT`: next id is one more than the
largest id in the table. -/
def nextId (us : List SUser) : Nat :=
  (us.map (fun u => u.id)).foldr max 0 + 1

/-! ## `/api/cadastro` and `/api/login` handlers of src/app.py -/

/-- Result of a run of `/api/cadastro`: status, `error` body field, and the
database after the run. -/
structure CadResult where
  status : Nat
  error : Option String
  db : SDb
  deriving Repr, DecidableEq

/-- The `/api/cadastro` handler (src/app.py lines 226-276).  The handler
strips `nome` and `password` and lowercases-then-strips `email` before
validating; a raise out of `hash_password` is caught by the handler's
outer `except` as a 500. -/
def cadastro (db : SDb) (salt : Nat) (now : Int)
    (nome email password : String) : CadResult :=
  let nome := pyStrip nome
  let email := pyStrip (pyLower email)
  let password := pyStrip password
  if nome.data.isEmpty || nome.data.length < 2 then
    { status := 400, error := some "Nome deve ter pelo menos 2 caracteres",
      db := db }
  else if email.data.isEmpty || !(email.data.contains '@') then
    { status := 400, error := some "Email inválido", db := db }
  else if password.data.length < 6 then
    { status := 400, error := some "Senha deve ter pelo menos 6 caracteres",
      db := db }
  else if 72 < password.data.length then
    { status := 400,
      error := some "Senha não pode ter mais de 72 caracteres", db := db }
  else if (get_user db email).isSome then
    { status := 409, error := some "Email já cadastrado", db := db }
  else
    match hash_password salt password with
    | none => { status := 500, error := some "Erro ao processar cadastro",
                db := db }
    | some h =>
        { status := 201, error := none,
          db := { db with users := db.users ++
            [{ id := nextId db.users, nome := nome, email := email,
               password := h, data_criacao := now }] } }

/-- Result of a run of `/api/login`: status, `error` body field, the
`access_token` and the `user.id` of the response body. -/
structure LoginResult where
  status : Nat
  error : Option String
  token : Option AccessToken
  userId : Option Nat
  deriving Repr, DecidableEq

/-- The `/api/login` handler (src/app.py lines 278-330).  The email is
lowercased and stripped; the password is used RAW (no strip).  A raise
out of `verify_password` (truncation `UnicodeDecodeError`) is caught by
the outer `except` as a 500.  The `sessoes` insert sits in its own
`try/except`: when it raises (`sessionInsertRaises`) the handler logs
and continues. -/
def login (db : SDb) (now : Int) (sessionInsertRaises : Bool)
    (email password : String) : LoginResult × SDb :=
  let email := pyStrip (pyLower email)
  if email.data.isEmpty || password.data.isEmpty then
    ({ status := 400, error := some "Email e senha são obrigatórios",
       token := none, userId := none }, db)
  else
    match get_user db email with
    | none =>
        ({ status := 401, error := some "Email ou senha incorretos",
           token := none, userId := none }, db)
    | some user =>
        match verify_password password user.password with
        | none =>
            ({ status := 500, error := some "Erro ao processar login",
               token := none, userId := none }, db)
        | some false =>
            ({ status := 401, error := some "Email ou senha incorretos",
               token := none, userId := none }, db)
        | some true =>
            let token := create_access_token user.id
            let db2 :=
              if sessionInsertRaises then db
              else { db with sessoes := db.sessoes ++
                [{ user_id := user.id, token := token,
                   data_criacao := now, data_expiracao := now + 86400 }] }
            ({ status := 200, error := none, token := some token,
               userId := some user.id }, db2)

/-- The empty SQLite database. -/
def emptySDb : SDb :=
  { users := [], chats := [], sessoes := [] }

/-- `find?` over a list extended on the right with a single match, when
nothing in the prefix matches. -/
theorem find?_append_singleton {α : Type} (p : α → Bool) (l : List α) (x : α)
    (h : ∀ a ∈ l, p a = false) (hx : p x = true) :
    (l ++ [x]).find? p = some x := by
  induction l with
  | nil => simp [List.find?, hx]
  | cons a as ih =>
      have ha : p a = false := h a (List.mem_cons_self a as)
      rw [List.cons_append, List.find?_cons_of_neg _ (by simp [ha])]
      exact ih (fun b hb => h b (List.mem_cons_of_mem a hb))

/-- C3 counterexample: with an empty store, name `"Jo"`, email
`"a@b.com"` and the password `" abcdef "` (8 characters, inside
`[6, 72]`), registration succeeds with 201 — `cadastro` strips the
password to `"abcdef"` before hashing — but authenticating with the
identical credentials fails with 401, because `login` does not strip the
password.  This refutes the claim that register-then-authenticate
succeeds for every password of length in `[6, 72]`. -/
theorem c3_round_trip_counterexample :
    (cadastro emptySDb 0 0 "Jo" "a@b.com" " abcdef ").status = 201
    ∧ (login (cadastro emptySDb 0 0 "Jo" "a@b.com" " abcdef ").db
        0 false "a@b.com" " abcdef ").1.status = 401 := by
  constructor <;> decide

/-- C3 (amended): for a name and password free of leading/trailing
whitespace, name length at least 2, password length in `[6, 72]` whose
72-byte UTF-8 truncation falls on a character boundary (in particular
any password encoding to at most 72 bytes), and an email whose
normalized form contains `'@'` and is not registered yet, `cadastro`
succeeds with 201 and a subsequent `login` with the identical
credentials succeeds with 200 and returns the identifier of the user
just created. -/
theorem c3_register_then_login
    (db : SDb) (salt : Nat) (now now2 : Int) (s : Bool)
    (nome email password : String)
    (hnome : pyStrip nome = nome) (hnomeLen : 2 ≤ nome.data.length)
    (hpwd : pyStrip password = password)
    (hpwdMin : 6 ≤ password.data.length)
    (hpwdMax : password.data.length ≤ 72)
    (hat : (pyStrip (pyLower email)).data.contains '@' = true)
    (hfresh : ∀ u ∈ db.users, ¬ u.email = pyStrip (pyLower email))
    (t : List Char)
    (htrunc : byteTruncate 72 (password.data.take 72) = some t) :
    (cadastro db salt now nome email password).status = 201
    ∧ (login (cadastro db salt now nome email password).db
        now2 s email password).1.status = 200
    ∧ (login (cadastro db salt now nome email password).db
        now2 s email password).1.userId = some (nextId db.users) := by
  have hatne : (pyStrip (pyLower email)).data ≠ [] := by
    intro h
    rw [h] at hat
    simp [List.contains] at hat
  have hatEmpty : (pyStrip (pyLower email)).data.isEmpty = false := by
    cases h : (pyStrip (pyLower email)).data with
    | nil => exact absurd h hatne
    | cons a l => simp [List.isEmpty]
  have hnomeEmpty : nome.data.isEmpty = false := by
    cases h : nome.data with
    | nil => rw [h] at hnomeLen; simp at hnomeLen
    | cons a l => simp [List.isEmpty]
  have hpwdEmpty : password.data.isEmpty = false := by
    cases h : password.data with
    | nil => rw [h] at hpwdMin; simp at hpwdMin
    | cons a l => simp [List.isEmpty]
  have hfind : get_user db (pyStrip (pyLower email)) = none := by
    unfold get_user
    rw [List.find?_eq_none]
    intro u hu
    simpa using hfresh u hu
  have hc1 : (nome.data.isEmpty || decide (nome.data.length < 2)) = false := by
    rw [hnomeEmpty]
    simp only [Bool.false_or, decide_eq_false_iff_not]
    omega
  have hc2 : ((pyStrip (pyLower email)).data.isEmpty
      || !((pyStrip (pyLower email)).data.contains '@')) = false := by
    rw [hatEmpty, hat]
    rfl
  have hcad : cadastro db salt now nome email password =
      { status := 201, error := none,
        db := { db with users := db.users ++
          [{ id := nextId db.users, nome := nome,
             email := pyStrip (pyLower email),
             password := bcrypt_hash salt t, data_criacao := now }] } } := by
    unfold cadastro
    rw [hnome, hpwd]
    rw [if_neg (by rw [hc1]; exact Bool.false_ne_true)]
    rw [if_neg (by rw [hc2]; exact Bool.false_ne_true)]
    rw [if_neg (by omega)]
    rw [if_neg (by omega)]
    rw [if_neg (by simp [hfind])]
    unfold hash_password
    rw [htrunc]
    rfl
  refine ⟨by rw [hcad], ?_⟩
  rw [hcad]
  have hfind2 :
      get_user { db with users := db.users ++
          [{ id := nextId db.users, nome := nome,
             email := pyStrip (pyLower email),
             password := bcrypt_hash salt t, data_criacao := now }] }
        (pyStrip (pyLower email)) =
      some { id := nextId db.users, nome := nome,
             email := pyStrip (pyLower email),
             password := bcrypt_hash salt t, data_criacao := now } := by
    unfold get_user
    exact find?_append_singleton _ _ _
      (fun a ha => by simpa using hfresh a ha) (by simp)
  have hver : verify_password password (bcrypt_hash salt t) = some true := by
    unfold verify_password
    rw [htrunc]
    simp [bcrypt_verify, bcrypt_hash]
  have hc3 : ((pyStrip (pyLower email)).data.isEmpty
      || password.data.isEmpty) = false := by
    rw [hatEmpty, hpwdEmpty]
    rfl
  unfold login
  rw [if_neg (by rw [hc3]; exact Bool.false_ne_true)]
  rw [hfind2]
  dsimp only
  rw [hver]
  exact ⟨rfl, rfl⟩

/-- Witness for C3 (amended): registering `("Jo", "a@b.com", "abcdef")` on
an empty store and logging in with the same credentials returns 201 then
200 with the new user id 1. -/
theorem c3_register_then_login_witness :
    (cadastro emptySDb 0 0 "Jo" "a@b.com" "abcdef").status = 201
    ∧ (login (cadastro emptySDb 0 0 "Jo" "a@b.com" "abcdef").db
        0 false "a@b.com" "abcdef").1.status = 200
    ∧ (login (cadastro emptySDb 0 0 "Jo" "a@b.com" "abcdef").db
        0 false "a@b.com" "abcdef").1.userId = some (nextId emptySDb.users) :=
  c3_register_then_login emptySDb 0 0 0 false "Jo" "a@b.com" "abcdef"
    (by decide) (by decide) (by decide) (by decide) (by decide) (by decide)
    (by intro u hu; simp [emptySDb] at hu) "abcdef".data (by decide)

/-! ## Backend `/api/chat/history` handler: src/backend/app.py lines 203-223

The handler runs `SELECT mensagem_usuario, resposta_ia, created_at FROM
chats WHERE user_id = %s ORDER BY created_at ASC` with NO `LIMIT` clause
and returns every row; the `limit` request parameter of the spec is never
read. -/

/-- Insertion step of sorting by `created_at` ascending. -/
def insertByTime (r : ChatRow) : List ChatRow → List ChatRow
  | [] => [r]
  | x :: xs =>
      if r.created_at ≤ x.created_at then r :: x :: xs
      else x :: insertByTime r xs

/-- Sort by `created_at` ascending (the `ORDER BY created_at ASC`). -/
def sortByTime : List ChatRow → List ChatRow
  | [] => []
  | x :: xs => insertByTime x (sortByTime xs)

/-- The `/api/chat/history` handler of src/backend/app.py (lines 203-223):
the rows of the authenticated user, ordered by `created_at` ascending —
all of them, with no limit. -/
def get_chat_history (uid : Nat) (chats : List ChatRow) : List ChatRow :=
  sortByTime (chats.filter (fun r => r.user_id == uid))

/-- Four chat rows A, B, C, D for user 1, appended in order. -/
def chatsABCD : List ChatRow :=
  [{ user_id := 1, mensagem_usuario := "A", resposta_ia := "ra",
     created_at := 1 },
   { user_id := 1, mensagem_usuario := "B", resposta_ia := "rb",
     created_at := 2 },
   { user_id := 1, mensagem_usuario := "C", resposta_ia := "rc",
     created_at := 3 },
   { user_id := 1, mensagem_usuario := "D", resposta_ia := "rd",
     created_at := 4 }]

/-- C4 counterexample: after appending A, B, C, D for user 1, the history
handler returns all four messages `[A, B, C, D]` — not at most 3 and not
the window `[B, C, D]`: the handler has no `LIMIT` clause and ignores
any limit parameter. -/
theorem c4_history_counterexample :
    (get_chat_history 1 chatsABCD).map (fun r => r.mensagem_usuario) =
      ["A", "B", "C", "D"]
    ∧ ¬ ((get_chat_history 1 chatsABCD).length ≤ 3) := by
  constructor <;> decide

/-- Sorting a list already sorted by `created_at` is the identity. -/
theorem sortByTime_eq_of_pairwise (l : List ChatRow)
    (h : l.Pairwise (fun a b => a.created_at ≤ b.created_at)) :
    sortByTime l = l := by
  induction l with
  | nil => rfl
  | cons x xs ih =>
      have hx := (List.pairwise_cons.mp h).1
      have hxs := (List.pairwise_cons.mp h).2
      show insertByTime x (sortByTime xs) = x :: xs
      rw [ih hxs]
      cases xs with
      | nil => rfl
      | cons y ys =>
          have hxy : x.created_at ≤ y.created_at :=
            hx y (List.mem_cons_self y ys)
          simp [insertByTime, hxy]

/-- C4 (amended): on a `chats` table whose rows are in nondecreasing
timestamp order (which server-side timestamping at insertion produces),
the history handler returns ALL of the user's message pairs, in
chronological order with the oldest first; no limit is applied. -/
theorem c4_history_returns_all (uid : Nat) (db : List ChatRow)
    (h : db.Pairwise (fun a b => a.created_at ≤ b.created_at)) :
    get_chat_history uid db = db.filter (fun r => r.user_id == uid)
    ∧ (get_chat_history uid db).Pairwise
        (fun a b => a.created_at ≤ b.created_at) := by
  have hf : (db.filter (fun r => r.user_id == uid)).Pairwise
      (fun a b => a.created_at ≤ b.created_at) := h.filter _
  have he : get_chat_history uid db =
      db.filter (fun r => r.user_id == uid) :=
    sortByTime_eq_of_pairwise _ hf
  exact ⟨he, he ▸ hf⟩

/-- Witness for C4 (amended): on the four-row table the handler returns
exactly the four rows of user 1 in chronological order. -/
theorem c4_history_returns_all_witness :
    get_chat_history 1 chatsABCD =
      chatsABCD.filter (fun r => r.user_id == 1) :=
  (c4_history_returns_all 1 chatsABCD (by decide)).1

/-! ## SQLite variant `/api/chat` handler: src/app.py lines 406-459 -/

/-- Result of a run of the SQLite `/api/chat` handler. -/
structure SChatResult where
  status : Nat
  response : Option String
  error : Option String
  db : SDb
  deriving Repr, DecidableEq

/-- The `/api/chat` handler of src/app.py (lines 406-459).  `jsonPresent`
is the truthiness of `request.json`; `gerarResult` is what the
`gerar_resposta` collaborator returns (`Except.error` when it raises,
landing in the outer `except` as a 500).  The `INSERT INTO chats` sits
in its own `try/except` (lines 441-452): when it raises
(`insertRaises`) the handler logs the error and continues, still
answering 200 with the collaborator response. -/
def sqlite_chat (db : SDb) (user_id : Nat) (now : Int)
    (jsonPresent : Bool) (message categoria : String)
    (gerarResult : Except String String) (insertRaises : Bool) :
    SChatResult :=
  if !jsonPresent then
    { status := 400, response := none, error := some "JSON vazio", db := db }
  else
    let message := pyStrip message
    let categoria := pyLower categoria
    if message.data.isEmpty then
      { status := 400, response := none,
        error := some "Mensagem não pode estar vazia", db := db }
    else if 2000 < message.data.length then
      { status := 400, response := none,
        error := some "Mensagem não pode exceder 2000 caracteres", db := db }
    else
      match gerarResult with
      | Except.error _ =>
          { status := 500, response := none,
            error := some "Erro ao processar sua mensagem", db := db }
      | Except.ok resposta =>
          let db2 :=
            if insertRaises then db
            else { db with chats := db.chats ++
              [{ user_id := user_id, categoria := categoria,
                 mensagem_usuario := message, resposta_ia := resposta,
                 data_criacao := now }] }
          { status := 200, response := some resposta, error := none,
            db := db2 }

/-- C5 counterexample: the claim's sources also cover the MySQL variant's
chat handler (src/backend/app.py lines 183-201), where the `INSERT INTO
chats` sits inside the handler's single `try`: for a premium user whose
request passes validation and entitlement and whose collaborator answer
is `"resposta"`, a raising insert makes that handler answer 500, not 200
with the answer. -/
theorem c5_persist_failure_counterexample :
    backend_chat (some (demoUser true 0)) 0 1 (some "oi") none
        (Except.ok "v") (Except.ok "resposta") true [] =
      { status := 500, response := none,
        error := some "Erro interno ao processar chat.",
        chats := [], calls := [Collab.text] } := by
  decide

/-- C5 (amended): in the SQLite variant's chat handler (src/app.py), for
every request that passes validation and whose collaborator returns an
answer, the handler answers 200 carrying that answer whether or not
the history insert raises; when it raises, the store is left unchanged
and the failure is not surfaced.  In the MySQL variant
(src/backend/app.py) a raising insert instead surfaces a 500. -/
theorem c5_sqlite_chat_persist_swallowed
    (db : SDb) (uid : Nat) (now : Int) (message categoria r : String)
    (insertRaises : Bool)
    (hmsg : (pyStrip message).data.isEmpty = false)
    (hlen : (pyStrip message).data.length ≤ 2000) :
    (sqlite_chat db uid now true message categoria
        (Except.ok r) insertRaises).status = 200
    ∧ (sqlite_chat db uid now true message categoria
        (Except.ok r) insertRaises).response = some r
    ∧ (sqlite_chat db uid now true message categoria
        (Except.ok r) true).db = db := by
  have h2000 : ¬ (2000 < (pyStrip message).data.length) := by omega
  have h2000L : ¬ (2000 < (pyStrip message).length) := h2000
  refine ⟨?_, ?_, ?_⟩ <;> simp [sqlite_chat, hmsg, h2000, h2000L]

/-- Witness for C5 (amended): a concrete valid message with a raising
insert still gets 200 and the collaborator answer, and the store is
untouched. -/
theorem c5_sqlite_chat_persist_swallowed_witness :
    (sqlite_chat emptySDb 1 0 true "qual carro comprar" "geral"
        (Except.ok "resposta") true).status = 200
    ∧ (sqlite_chat emptySDb 1 0 true "qual carro comprar" "geral"
        (Except.ok "resposta") true).response = some "resposta"
    ∧ (sqlite_chat emptySDb 1 0 true "qual carro comprar" "geral"
        (Except.ok "resposta") true).db = emptySDb :=
  c5_sqlite_chat_persist_swallowed emptySDb 1 0 "qual carro comprar"
    "geral" "resposta" true (by decide) (by decide)

/-! ## C6: user-enumeration resistance of `/api/login` (src/app.py) -/

/-- A store holding one user `x@y.com` whose password is `"abcdef"`. -/
def userXdb : SDb :=
  { users := [{ id := 7, nome := "Xavier", email := "x@y.com",
                password := bcrypt_hash 3 "abcdef".data,
                data_criacao := 0 }],
    chats := [], sessoes := [] }

/-- A password whose UTF-8 encoding is 73 bytes with the 72-byte cut
falling inside the 24th euro sign: `verify_password` raises
`UnicodeDecodeError` on it. -/
def pbad : String := "a€€€€€€€€€€€€€€€€€€€€€€€€"

/-- C6 counterexample: with the crafted password `pbad`, login against a
nonexistent email answers 401 (`get_user` misses and `verify_password`
is never called), while login against the existing email `x@y.com`
reaches `verify_password`, whose 72-byte truncation raises
`UnicodeDecodeError`, caught by the outer `except` as a 500 — the two
responses differ, giving a user-enumeration signal. -/
theorem c6_enumeration_counterexample :
    (login userXdb 0 false "no@y.com" pbad).1.status = 401
    ∧ (login userXdb 0 false "x@y.com" pbad).1.status = 500
    ∧ (login userXdb 0 false "no@y.com" pbad).1 ≠
        (login userXdb 0 false "x@y.com" pbad).1 := by
  refine ⟨?_, ?_, ?_⟩ <;> decide

/-- C6 (amended): for every password whose 72-byte UTF-8 truncation falls
on a character boundary (in particular every password of at most 72
bytes), the login response when no user with the normalized email
exists is identical — status 401 and the same error body — to the
response when the user exists but the password fails hash
verification. -/
theorem c6_no_enumeration
    (db1 db2 : SDb) (now1 now2 : Int) (s1 s2 : Bool)
    (email1 email2 password : String) (u : SUser) (t : List Char)
    (htrunc : byteTruncate 72 (password.data.take 72) = some t)
    (hne1 : (pyStrip (pyLower email1)).data.isEmpty = false)
    (hne2 : (pyStrip (pyLower email2)).data.isEmpty = false)
    (hpw : password.data.isEmpty = false)
    (h1 : get_user db1 (pyStrip (pyLower email1)) = none)
    (h2 : get_user db2 (pyStrip (pyLower email2)) = some u)
    (hv : bcrypt_verify t u.password = false) :
    (login db1 now1 s1 email1 password).1 =
      (login db2 now2 s2 email2 password).1
    ∧ (login db1 now1 s1 email1 password).1.status = 401 := by
  have hver : verify_password password u.password = some false := by
    unfold verify_password
    rw [htrunc]
    simp [hv]
  have e1 : (login db1 now1 s1 email1 password).1 =
      { status := 401, error := some "Email ou senha incorretos",
        token := none, userId := none } := by
    unfold login
    rw [if_neg (by rw [hne1, hpw]; exact Bool.false_ne_true)]
    rw [h1]
  have e2 : (login db2 now2 s2 email2 password).1 =
      { status := 401, error := some "Email ou senha incorretos",
        token := none, userId := none } := by
    unfold login
    rw [if_neg (by rw [hne2, hpw]; exact Bool.false_ne_true)]
    rw [h2]
    dsimp only
    rw [hver]
  rw [e1, e2]
  exact ⟨rfl, rfl⟩

/-- Witness for C6 (amended): logging in with the clean password
`"zzzzzz"` against a missing email and against `x@y.com` (whose stored
password is `"abcdef"`) yields the same 401 response. -/
theorem c6_no_enumeration_witness :
    (login emptySDb 0 false "no@y.com" "zzzzzz").1 =
      (login userXdb 5 true "x@y.com" "zzzzzz").1
    ∧ (login emptySDb 0 false "no@y.com" "zzzzzz").1.status = 401 :=
  c6_no_enumeration emptySDb userXdb 0 5 false true "no@y.com" "x@y.com"
    "zzzzzz"
    { id := 7, nome := "Xavier", email := "x@y.com",
      password := bcrypt_hash 3 "abcdef".data, data_criacao := 0 }
    "zzzzzz".data (by decide) (by decide) (by decide) (by decide)
    (by decide) (by decide) (by decide)

/-! ## `/api/report` endpoint: src/backend/app.py lines 226-252 -/

/-- The call site `criar_relatorio_pdf(text_content, user_id)`
(src/backend/app.py line 247): `criar_relatorio_pdf` is defined with
THREE required positional parameters `(usuario, dados_analise,
nome_arquivo_saida)` (src/backend/report_generator.py line 19), so
invoking it with two arguments raises `TypeError` before its body runs
— and even a correctly arranged call would return `True` (line 57),
never a URL. -/
def criar_relatorio_pdf_call2 (text : String) (userId : Nat) :
    Except String String :=
  Except.error
    "criar_relatorio_pdf() missing 1 required positional argument: nome_arquivo_saida"

/-- Result of a run of `/api/report`: HTTP status, the `url` body field on
success, the `error` body field on failure. -/
structure ReportResult where
  status : Nat
  url : Option String
  error : Option String
  deriving Repr, DecidableEq

/-- The `/api/report` handler of src/backend/app.py (lines 226-252):
empty/missing text is a 400; a missing or non-premium user is a 403;
otherwise the handler calls `criar_relatorio_pdf(text_content,
user_id)` inside a `try` whose `except` answers 500. -/
def generate_report_endpoint (text : Option String)
    (userLookup : Option Bool) (userId : Nat) : ReportResult :=
  if !(pyTruthy text) then
    { status := 400, url := none, error := some "Conteúdo do relatório vazio" }
  else
    match userLookup with
    | none =>
        { status := 403, url := none,
          error := some "Recurso exclusivo para Premium" }
    | some prem =>
        if !prem then
          { status := 403, url := none,
            error := some "Recurso exclusivo para Premium" }
        else
          match criar_relatorio_pdf_call2 (text.getD "") userId with
          | Except.error _ =>
              { status := 500, url := none,
                error := some "Falha na geração do PDF" }
          | Except.ok url =>
              { status := 200, url := some url, error := none }

/-- C7: the 400 (empty content) and 403 (not premium) arms agree with the
claim, but the success arm does not exist: for a premium user with
non-empty content the handler answers 500 "Falha na geração do PDF",
because the `criar_relatorio_pdf(text_content, user_id)` call raises
`TypeError` (the function requires three positional arguments) — the
response is never 200 with a URL. -/
theorem c7_report_endpoint_bug :
    generate_report_endpoint (some "Laudo do veiculo") (some true) 1 =
      { status := 500, url := none, error := some "Falha na geração do PDF" }
    ∧ generate_report_endpoint (some "") (some true) 1 =
      { status := 400, url := none,
        error := some "Conteúdo do relatório vazio" }
    ∧ generate_report_endpoint (some "Laudo") (some false) 1 =
      { status := 403, url := none,
        error := some "Recurso exclusivo para Premium" } := by
  refine ⟨?_, ?_, ?_⟩ <;> decide

/-! ## `gerar_resposta` of src/autoai.py (lines 61-108) -/

/-- Substring test on character lists (Python `needle in haystack`). -/
def containsSubList : List Char → List Char → Bool
  | n, [] => n.isEmpty
  | n, c :: rest => n.isPrefixOf (c :: rest) || containsSubList n rest

/-- Python `needle in haystack` on strings. -/
def containsSub (needle hay : String) : Bool :=
  containsSubList needle.data hay.data

/-- `str(e)` for the `AttributeError` raised by `PROMPTS.get(...)` on a
Python list. -/
def attrErrMsg : String :=
  "\x27list\x27 object has no attribute \x27get\x27"

/-- The single system prompt of src/autoai.py lines 29-58 (its text,
abbreviated to its opening sentence here, is immaterial: what matters
is that `PROMPTS` is a LIST, not a dict). -/
def promptNOG : String :=
  "Você é o NOG, um consultor automotivo profissional com ampla experiência no mercado brasileiro."

/-- `PROMPTS` of src/autoai.py line 29: a Python list with one element. -/
def PROMPTS : List String := [promptNOG]

/-- The expression `PROMPTS.get(categoria, PROMPTS["geral"])`
(src/autoai.py line 74): `PROMPTS` is a list and lists have no `get`
attribute, so the attribute lookup raises `AttributeError` with message
`attrErrMsg` before anything else is evaluated. -/
def promptsGet (categoria : String) : Except String String :=
  Except.error attrErrMsg

/-- The quota-exceeded reply of src/autoai.py lines 88-97 (abbreviated to
its first line; the text is immaterial to the claims). -/
def autoaiQuotaMsg : String :=
  "❌ **Limite de requisições atingido!**"

/-- The `except` dispatch of `gerar_resposta` (src/autoai.py lines 82-108)
on `error_str = str(e)`. -/
def autoaiHandleError (error_str : String) : String :=
  if containsSub "429" error_str
      || containsSub "RESOURCE_EXHAUSTED" error_str
      || containsSub "quota" (pyLower error_str) then
    autoaiQuotaMsg
  else if containsSub "api" (pyLower error_str)
      || containsSub "connection" (pyLower error_str) then
    "❌ Erro ao conectar com a API de IA. Tente novamente em alguns segundos."
  else
    "❌ Desculpe, ocorreu um erro ao processar sua mensagem. Tente novamente."

/-- `gerar_resposta` of src/autoai.py (lines 61-108), with the Gemini
client `model.invoke` as an oracle.  The prompt lookup raises before
the model can be reached; the exception lands in the `except` branch. -/
def gerar_resposta_autoai (mensagem : String) (user_id : Nat)
    (categoria : String) (modelInvoke : String → Except String String) :
    String :=
  match promptsGet categoria with
  | Except.error e => autoaiHandleError e
  | Except.ok system_prompt =>
      match modelInvoke
          (system_prompt ++ "\n\nPergunta do usuário:\n" ++ mensagem) with
      | Except.ok content => content
      | Except.error e => autoaiHandleError e

/-- C8: for every message, user and category, and whatever the model would
answer, `gerar_resposta` never reaches the model: `PROMPTS.get` raises
`AttributeError` on the list, the generic branch of the `except`
dispatch catches it (the message contains none of "429",
"RESOURCE_EXHAUSTED", "quota", "api", "connection"), and the fixed
fallback string is returned. -/
theorem c8_gerar_resposta_always_fallback
    (mensagem : String) (user_id : Nat) (categoria : String)
    (modelInvoke : String → Except String String) :
    gerar_resposta_autoai mensagem user_id categoria modelInvoke =
      "❌ Desculpe, ocorreu um erro ao processar sua mensagem. Tente novamente." := by
  rfl

/-! ## `analisar_imagem` of src/vision_ai.py (lines 43-132) -/

/-- `image_b64.split(",")[1]` when the string contains a comma, else the
string itself (the data-URI prefix strip of src/vision_ai.py lines
56-57). -/
def dataUrlStrip (s : String) : String :=
  if s.data.contains ',' then
    ⟨((s.data.dropWhile (fun c => !(c == ','))).drop 1).takeWhile
      (fun c => !(c == ','))⟩
  else s

/-- Outcome of the `try` body of `analisar_imagem`: a model answer, a
raised `ValueError` (the three validation failures), or any other
exception (e.g. out of the model call). -/
inductive VisionOutcome where
  | ok (s : String)
  | valueError (msg : String)
  | exc (msg : String)
  deriving Repr, DecidableEq

/-- The `try` body of `analisar_imagem` (src/vision_ai.py lines 54-103).
`b64decode` abstracts `base64.b64decode(..., validate=True)` (`none`
when it raises, `some n` for a decode to `n` bytes); `pilValid`
abstracts the PIL open/verify pair; `modelResult` abstracts the Gemini
call. -/
def analisar_imagem_inner (image_b64 : String) (pergunta : Option String)
    (b64decode : String → Option Nat) (pilValid : Bool)
    (modelResult : Except String String) : VisionOutcome :=
  let b := dataUrlStrip image_b64
  match b64decode b with
  | none => VisionOutcome.valueError "Imagem base64 inválida"
  | some rawLen =>
      if !pilValid then
        VisionOutcome.valueError "Arquivo não é uma imagem válida"
      else if 20 * 1024 * 1024 < rawLen then
        VisionOutcome.valueError "Imagem muito grande (máximo 20MB)"
      else
        match modelResult with
        | Except.ok content => VisionOutcome.ok content
        | Except.error e => VisionOutcome.exc e

/-- The non-`ValueError` `except` dispatch of `analisar_imagem`
(src/vision_ai.py lines 109-132); the quota text is abbreviated to its
first line. -/
def visionHandleExc (error_str : String) : String :=
  if containsSub "429" error_str
      || containsSub "RESOURCE_EXHAUSTED" error_str
      || containsSub "quota" (pyLower error_str) then
    "❌ **Limite de requisições atingido!**"
  else if containsSub "api" (pyLower error_str)
      || containsSub "connection" (pyLower error_str) then
    "❌ Erro ao conectar com a API de IA. Tente novamente em alguns segundos."
  else
    "❌ Desculpe, ocorreu um erro ao analisar a imagem. Tente novamente."

/-- `analisar_imagem` of src/vision_ai.py (lines 43-132): the `try` body
wrapped by `except ValueError` (prefixed validation message) and
`except Exception` (the dispatch above).  `Except.error` would model an
exception escaping to the caller; no branch produces one. -/
def analisar_imagem (image_b64 : String) (pergunta : Option String)
    (b64decode : String → Option Nat) (pilValid : Bool)
    (modelResult : Except String String) : Except String String :=
  match analisar_imagem_inner image_b64 pergunta b64decode pilValid
      modelResult with
  | VisionOutcome.ok s => Except.ok s
  | VisionOutcome.valueError m =>
      Except.ok ("❌ Erro ao processar imagem: " ++ m)
  | VisionOutcome.exc e => Except.ok (visionHandleExc e)

/-- C9: `analisar_imagem` is total at its interface — for every input and
every behaviour of the decoder, the image validator and the model it
returns a string and never propagates an exception — and each of the
three validation failures (bad base64, not an image, image over 20 MB)
yields a message beginning `"❌ Erro ao processar imagem:"`. -/
theorem c9_analisar_imagem_total (image_b64 : String)
    (pergunta : Option String) (b64decode : String → Option Nat)
    (pilValid : Bool) (modelResult : Except String String) :
    (∃ s, analisar_imagem image_b64 pergunta b64decode pilValid
        modelResult = Except.ok s)
    ∧ (b64decode (dataUrlStrip image_b64) = none →
        analisar_imagem image_b64 pergunta b64decode pilValid modelResult =
          Except.ok "❌ Erro ao processar imagem: Imagem base64 inválida")
    ∧ (∀ n, b64decode (dataUrlStrip image_b64) = some n → pilValid = false →
        analisar_imagem image_b64 pergunta b64decode pilValid modelResult =
          Except.ok "❌ Erro ao processar imagem: Arquivo não é uma imagem válida")
    ∧ (∀ n, b64decode (dataUrlStrip image_b64) = some n → pilValid = true →
        20 * 1024 * 1024 < n →
        analisar_imagem image_b64 pergunta b64decode pilValid modelResult =
          Except.ok "❌ Erro ao processar imagem: Imagem muito grande (máximo 20MB)") := by
  refine ⟨?_, ?_, ?_, ?_⟩
  · unfold analisar_imagem
    cases h : analisar_imagem_inner image_b64 pergunta b64decode pilValid
        modelResult with
    | ok s => exact ⟨s, rfl⟩
    | valueError m => exact ⟨_, rfl⟩
    | exc e => exact ⟨_, rfl⟩
  · intro h
    unfold analisar_imagem analisar_imagem_inner
    dsimp only
    rw [h]
    rfl
  · intro n h hp
    unfold analisar_imagem analisar_imagem_inner
    dsimp only
    rw [h, hp]
    rfl
  · intro n h hp hbig
    unfold analisar_imagem analisar_imagem_inner
    dsimp only
    rw [h, hp]
    dsimp only
    rw [if_pos hbig]
    rfl

/-- Witness for C9: at a decoder that rejects the input, the function
returns the prefixed bad-base64 message (and in particular an `ok`). -/
theorem c9_analisar_imagem_total_witness :
    analisar_imagem "notbase64" none (fun x => none) true
        (Except.ok "laudo") =
      Except.ok "❌ Erro ao processar imagem: Imagem base64 inválida" :=
  (c9_analisar_imagem_total "notbase64" none (fun x => none) true
    (Except.ok "laudo")).2.1 rfl

/-! ## C10: session-insert failure tolerance of `/api/login` (src/app.py) -/

/-- C10: whenever the submitted credentials verify, the login handler
answers 200 with the access token and the user identity whether or not
the `sessoes` insert raises — the insert sits in its own `try/except`
(src/app.py lines 301-316) — and when it raises the store is left
unchanged. -/
theorem c10_login_session_insert_swallowed
    (db : SDb) (now : Int) (email password : String) (u : SUser)
    (t : List Char)
    (hne : (pyStrip (pyLower email)).data.isEmpty = false)
    (hpw : password.data.isEmpty = false)
    (hu : get_user db (pyStrip (pyLower email)) = some u)
    (htrunc : byteTruncate 72 (password.data.take 72) = some t)
    (hv : bcrypt_verify t u.password = true) (s : Bool) :
    (login db now s email password).1 =
      { status := 200, error := none,
        token := some (create_access_token u.id), userId := some u.id }
    ∧ (login db now true email password).2 = db := by
  have hver : verify_password password u.password = some true := by
    unfold verify_password
    rw [htrunc]
    simp [hv]
  constructor
  · unfold login
    rw [if_neg (by rw [hne, hpw]; exact Bool.false_ne_true)]
    rw [hu]
    dsimp only
    rw [hver]
  · unfold login
    rw [if_neg (by rw [hne, hpw]; exact Bool.false_ne_true)]
    rw [hu]
    dsimp only
    rw [hver]
    rfl

/-- Witness for C10: the user of `userXdb` logging in with the correct
password gets 200 and a token even with a raising session insert, and
the store is unchanged. -/
theorem c10_login_session_insert_swallowed_witness :
    (login userXdb 0 true "x@y.com" "abcdef").1 =
      { status := 200, error := none,
        token := some (create_access_token 7), userId := some 7 }
    ∧ (login userXdb 0 true "x@y.com" "abcdef").2 = userXdb :=
  c10_login_session_insert_swallowed userXdb 0 "x@y.com" "abcdef"
    { id := 7, nome := "Xavier", email := "x@y.com",
      password := bcrypt_hash 3 "abcdef".data, data_criacao := 0 }
    "abcdef".data (by decide) (by decide) (by decide) (by decide)
    (by decide) true
